import Mathlib

/-!
Shallow embedding of the agent-monitor terminal core
(src/src-tauri/src/terminal.rs and src/src-tauri/src/filesystem.rs).

OS-level effects (opening a pty, spawning a child, env-var lookup, the
clock, write/flush/resize syscalls) are modelled by explicit environment
records whose fields carry the `Result` value the corresponding call
returns; the Manager state (the process-global `NEXT_TERMINAL_ID` atomic
and the mutex-guarded `terminals` HashMap) is threaded explicitly.
External side effects performed by `spawn_terminal` are recorded in an
effects log so that "no side effect" claims can be stated.
-/

namespace AgentMonitor

/-! ## Constants (terminal.rs lines 11-17) -/

def DEFAULT_TERMINAL_ROWS : Nat := 24

def DEFAULT_TERMINAL_COLS : Nat := 80

def READ_BUFFER_SIZE : Nat := 4096

/-- `u32` wraps at `2^32` (`AtomicU32::fetch_add` is wrapping). -/
def U32_MOD : Nat := 2 ^ 32

/-- `MAX_TERMINAL_ID: u32 = u32::MAX - 1`. -/
def MAX_TERMINAL_ID : Nat := 2 ^ 32 - 2

/-! ## Data model (terminal.rs lines 19-36) -/

/-- `TerminalInfo` (terminal.rs lines 19-25). -/
structure TerminalInfo where
  id : Nat
  name : String
  cwd : String
  created_at : String
deriving Repr, DecidableEq

/-- `TerminalInstance` (terminal.rs lines 27-32): the pty pair and the
writer are OS handles, modelled as opaque numeric tokens supplied by the
environment. -/
structure TerminalInstance where
  info : TerminalInfo
  pty_pair : Nat
  writer : Nat
deriving Repr, DecidableEq

/-- The mutable state of the Manager: the process-global id counter
`NEXT_TERMINAL_ID` (terminal.rs line 17) together with the registry map
`terminals : Mutex<HashMap<u32, TerminalInstance>>` (terminal.rs line 35),
the latter modelled as an association list with unique keys. -/
structure ManagerState where
  next_terminal_id : Nat
  terminals : List (Nat × TerminalInstance)
deriving Repr, DecidableEq

/-- `NEXT_TERMINAL_ID` starts at 1 and the map starts empty
(terminal.rs lines 17 and 45-49). -/
def initialManagerState : ManagerState :=
  { next_terminal_id := 1, terminals := [] }

/-! ### HashMap operations on the association-list model.
`HashMap` keys are unique; `insert` replaces in place and `remove`
deletes the (unique) entry with the given key. -/

def mapLookup (m : List (Nat × TerminalInstance)) (k : Nat) :
    Option TerminalInstance :=
  match m with
  | [] => none
  | (k', v) :: rest => if k' = k then some v else mapLookup rest k

def mapInsert (m : List (Nat × TerminalInstance)) (k : Nat)
    (v : TerminalInstance) : List (Nat × TerminalInstance) :=
  match m with
  | [] => [(k, v)]
  | (k', v') :: rest =>
      if k' = k then (k, v) :: rest else (k', v') :: mapInsert rest k v

def mapRemove (m : List (Nat × TerminalInstance)) (k : Nat) :
    List (Nat × TerminalInstance) :=
  m.filter (fun p => p.1 ≠ k)

/-! ## Environments: results of the OS calls a Manager operation makes -/

/-- Environment for one `spawn_terminal` call: the outcome of each
fallible OS call it makes, the environment variables consulted for the
working-directory fallback, and the clock value. `Nat` payloads are the
opaque handles the successful calls return. -/
structure SpawnEnv where
  openpty : Except String Nat
  spawn_command : Except String Nat
  take_writer : Except String Nat
  try_clone_reader : Except String Nat
  userprofile : Option String
  home : Option String
  now : String
deriving Repr

/-- Environment for one `write_to_terminal` call. -/
structure WriteEnv where
  write_all : Except String Unit
  flush : Except String Unit
deriving Repr

/-- Environment for one `resize_terminal` call. -/
structure ResizeEnv where
  resize : Except String Unit
deriving Repr

/-- External side effects `spawn_terminal` can perform, in order. -/
inductive Effect where
  | openedPty
  | spawnedChild
  | startedReader (id : Nat)
deriving Repr, DecidableEq

/-! ## Manager operations (terminal.rs lines 51-219) -/

/-- `TerminalManager::spawn_terminal` (terminal.rs lines 51-156).
Returns the `Result`, the updated state, and the log of external side
effects performed. -/
def spawn_terminal (env : SpawnEnv) (st : ManagerState)
    (cwd name : Option String) :
    Except String TerminalInfo × ManagerState × List Effect :=
  let current_id := st.next_terminal_id
  if current_id ≥ MAX_TERMINAL_ID then
    (.error "Terminal ID overflow - please restart the application", st, [])
  else
    match env.openpty with
    | .error e => (.error ("Failed to open PTY: " ++ e), st, [])
    | .ok pty =>
      let working_dir :=
        match cwd with
        | some c => c
        | none =>
          match env.userprofile with
          | some v => v
          | none =>
            match env.home with
            | some v => v
            | none => "."
      match env.spawn_command with
      | .error e =>
          (.error ("Failed to spawn command: " ++ e), st, [.openedPty])
      | .ok _child =>
        let id := st.next_terminal_id
        let st1 : ManagerState :=
          { st with next_terminal_id := (st.next_terminal_id + 1) % U32_MOD }
        let terminal_name :=
          match name with
          | some n => n
          | none => "Terminal " ++ toString id
        let info : TerminalInfo :=
          { id := id, name := terminal_name, cwd := working_dir,
            created_at := env.now }
        match env.take_writer with
        | .error e =>
            (.error ("Failed to get writer: " ++ e), st1,
              [.openedPty, .spawnedChild])
        | .ok writer =>
          match env.try_clone_reader with
          | .error e =>
              (.error ("Failed to get reader: " ++ e), st1,
                [.openedPty, .spawnedChild])
          | .ok _reader =>
            let inst : TerminalInstance :=
              { info := info, pty_pair := pty, writer := writer }
            let st2 : ManagerState :=
              { st1 with terminals := mapInsert st1.terminals id inst }
            (.ok info, st2, [.openedPty, .spawnedChild, .startedReader id])

/-- `TerminalManager::write_to_terminal` (terminal.rs lines 158-175). -/
def write_to_terminal (env : WriteEnv) (st : ManagerState) (id : Nat)
    (_data : String) : Except String Unit × ManagerState :=
  match mapLookup st.terminals id with
  | none => (.error ("Terminal " ++ toString id ++ " not found"), st)
  | some _inst =>
    match env.write_all with
    | .error e => (.error ("Failed to write to terminal: " ++ e), st)
    | .ok _ =>
      match env.flush with
      | .error e => (.error ("Failed to flush terminal: " ++ e), st)
      | .ok _ => (.ok (), st)

/-- `TerminalManager::resize_terminal` (terminal.rs lines 177-195). -/
def resize_terminal (env : ResizeEnv) (st : ManagerState) (id : Nat)
    (_cols _rows : Nat) : Except String Unit × ManagerState :=
  match mapLookup st.terminals id with
  | none => (.error ("Terminal " ++ toString id ++ " not found"), st)
  | some _inst =>
    match env.resize with
    | .error e => (.error ("Failed to resize terminal: " ++ e), st)
    | .ok _ => (.ok (), st)

/-- `TerminalManager::close_terminal` (terminal.rs lines 197-205). -/
def close_terminal (st : ManagerState) (id : Nat) :
    Except String Unit × ManagerState :=
  match mapLookup st.terminals id with
  | none => (.error ("Terminal " ++ toString id ++ " not found"), st)
  | some _inst => (.ok (), { st with terminals := mapRemove st.terminals id })

/-- `TerminalManager::list_terminals` (terminal.rs lines 207-210). -/
def list_terminals (st : ManagerState) : List TerminalInfo :=
  st.terminals.map (fun p => p.2.info)

/-- `TerminalManager::update_terminal_cwd` (terminal.rs lines 212-219). -/
def update_terminal_cwd (st : ManagerState) (id : Nat) (cwd : String) :
    Except String Unit × ManagerState :=
  match mapLookup st.terminals id with
  | none => (.error ("Terminal " ++ toString id ++ " not found"), st)
  | some inst =>
      (.ok (),
        { st with
          terminals :=
            mapInsert st.terminals id
              { inst with info := { inst.info with cwd := cwd } } })

/-- The NotFound error message every id-taking operation produces
(terminal.rs lines 162, 181, 203, 216). -/
def not_found_msg (id : Nat) : String :=
  "Terminal " ++ toString id ++ " not found"

/-! ## Trace semantics: arbitrary interleavings of Manager calls -/

/-- One external Manager call, carrying the environment for the OS calls
it will make. -/
inductive MgrOp where
  | create (env : SpawnEnv) (cwd name : Option String)
  | write (env : WriteEnv) (id : Nat) (data : String)
  | resize (env : ResizeEnv) (id : Nat) (cols rows : Nat)
  | close (id : Nat)
  | updateCwd (id : Nat) (cwd : String)

/-- Execute one call: new state, plus the metadata returned when the call
was a successful `create`. -/
def stepOp (st : ManagerState) : MgrOp → ManagerState × Option TerminalInfo
  | .create env cwd name =>
    match spawn_terminal env st cwd name with
    | (.ok info, st', _) => (st', some info)
    | (.error _, st', _) => (st', none)
  | .write env id data => ((write_to_terminal env st id data).2, none)
  | .resize env id cols rows => ((resize_terminal env st id cols rows).2, none)
  | .close id => ((close_terminal st id).2, none)
  | .updateCwd id cwd => ((update_terminal_cwd st id cwd).2, none)

/-- The ids handed out by the successful `create` calls of a call
sequence, in call order. -/
def createdIds (st : ManagerState) : List MgrOp → List Nat
  | [] => []
  | op :: rest =>
    match stepOp st op with
    | (st', some info) => info.id :: createdIds st' rest
    | (st', none) => createdIds st' rest

/-! ## Reader task (terminal.rs lines 124-153) -/

/-- Result of one `reader.read(&mut buf)` call: `ok data` is
`Ok(data.len())` with `data` the bytes read, `err e` is `Err(e)`. -/
inductive ReadResult where
  | ok (data : List Nat)
  | err (e : String)
deriving Repr, DecidableEq

/-- Notifications emitted to the event sink (`app.emit`). -/
inductive TermEvent where
  | output (id : Nat) (data : String)
  | closed (id : Nat)
deriving Repr, DecidableEq

/-- A read outcome on which the loop breaks: `Ok(0)` or `Err(_)`. -/
def is_terminal_read : ReadResult → Bool
  | .ok [] => true
  | .ok (_ :: _) => false
  | .err _ => true

def utf8_is_cont (b : Nat) : Bool := 0x80 ≤ b && b ≤ 0xBF

def replacement_char : Char := Char.ofNat 0xFFFD

/-- Second-byte validity for a three-byte UTF-8 sequence. -/
def utf8_cont2_ok (b1 b2 : Nat) : Bool :=
  if b1 = 0xE0 then 0xA0 ≤ b2 && b2 ≤ 0xBF
  else if b1 = 0xED then 0x80 ≤ b2 && b2 ≤ 0x9F
  else utf8_is_cont b2

/-- Second-byte validity for a four-byte UTF-8 sequence. -/
def utf8_cont2_ok4 (b1 b2 : Nat) : Bool :=
  if b1 = 0xF0 then 0x90 ≤ b2 && b2 ≤ 0xBF
  else if b1 = 0xF4 then 0x80 ≤ b2 && b2 ≤ 0x8F
  else utf8_is_cont b2

/-- Lossy UTF-8 decoding (`String::from_utf8_lossy`): invalid sequences
are replaced by U+FFFD and decoding continues at the first unexpected
byte. Fuel is the number of bytes; each step consumes at least one. -/
def from_utf8_lossy_go : Nat → List Nat → List Char
  | 0, _ => []
  | _ + 1, [] => []
  | fuel + 1, b1 :: rest =>
    if b1 ≤ 0x7F then
      Char.ofNat b1 :: from_utf8_lossy_go fuel rest
    else if 0xC2 ≤ b1 && b1 ≤ 0xDF then
      match rest with
      | [] => [replacement_char]
      | b2 :: rest2 =>
        if utf8_is_cont b2 then
          Char.ofNat ((b1 - 0xC0) * 0x40 + (b2 - 0x80)) ::
            from_utf8_lossy_go fuel rest2
        else replacement_char :: from_utf8_lossy_go fuel rest
    else if 0xE0 ≤ b1 && b1 ≤ 0xEF then
      match rest with
      | [] => [replacement_char]
      | b2 :: rest2 =>
        if utf8_cont2_ok b1 b2 then
          match rest2 with
          | [] => [replacement_char]
          | b3 :: rest3 =>
            if utf8_is_cont b3 then
              Char.ofNat
                  ((b1 - 0xE0) * 0x1000 + (b2 - 0x80) * 0x40 + (b3 - 0x80)) ::
                from_utf8_lossy_go fuel rest3
            else replacement_char :: from_utf8_lossy_go fuel rest2
        else replacement_char :: from_utf8_lossy_go fuel rest
    else if 0xF0 ≤ b1 && b1 ≤ 0xF4 then
      match rest with
      | [] => [replacement_char]
      | b2 :: rest2 =>
        if utf8_cont2_ok4 b1 b2 then
          match rest2 with
          | [] => [replacement_char]
          | b3 :: rest3 =>
            if utf8_is_cont b3 then
              match rest3 with
              | [] => [replacement_char]
              | b4 :: rest4 =>
                if utf8_is_cont b4 then
                  Char.ofNat
                      ((b1 - 0xF0) * 0x40000 + (b2 - 0x80) * 0x1000 +
                        (b3 - 0x80) * 0x40 + (b4 - 0x80)) ::
                    from_utf8_lossy_go fuel rest4
                else replacement_char :: from_utf8_lossy_go fuel rest3
            else replacement_char :: from_utf8_lossy_go fuel rest2
        else replacement_char :: from_utf8_lossy_go fuel rest
    else replacement_char :: from_utf8_lossy_go fuel rest

def from_utf8_lossy (bs : List Nat) : String :=
  String.mk (from_utf8_lossy_go bs.length bs)

/-- The reader-thread loop (terminal.rs lines 124-153), as a function of
the finite trace of read results the thread observes: `Ok(0)` emits
`terminal-closed` and breaks, `Ok(n)` with `n > 0` emits
`terminal-output` and loops, `Err(e)` emits `terminal-closed` and
breaks. An exhausted trace models a read still blocked. -/
def reader_loop (id : Nat) : List ReadResult → List TermEvent
  | [] => []
  | .ok [] :: _ => [.closed id]
  | .ok (b :: bs) :: rest =>
      .output id (from_utf8_lossy (b :: bs)) :: reader_loop id rest
  | .err _ :: _ => [.closed id]

/-- How many `read` calls the loop completes on a given trace. -/
def reader_reads_consumed : List ReadResult → Nat
  | [] => 0
  | .ok [] :: _ => 1
  | .ok (_ :: _) :: rest => 1 + reader_reads_consumed rest
  | .err _ :: _ => 1

/-! ## Filesystem module (src/src-tauri/src/filesystem.rs) -/

/-- `FileEntry` (filesystem.rs lines 5-12). -/
structure FileEntry where
  name : String
  path : String
  is_dir : Bool
  is_hidden : Bool
  size : Nat
deriving Repr, DecidableEq

/-- What `fs::read_dir` yields for one directory entry: whether the
entry itself and its metadata could be read, the name and full path, the
directory flag, the Windows hidden attribute, and `metadata.len()`. -/
structure RawEntry where
  entry_ok : Bool
  metadata_ok : Bool
  name : String
  path : String
  is_dir : Bool
  win_hidden_attr : Bool
  len : Nat
deriving Repr, DecidableEq

/-- Environment for one `read_directory` call: the `exists()` and
`is_dir()` checks on the path and the outcome of `fs::read_dir`. -/
structure DirEnv where
  path_exists : Bool
  path_is_dir : Bool
  read_dir : Except String (List RawEntry)
deriving Repr

/-- `is_hidden_file` (filesystem.rs lines 77-99), Windows build:
dot-prefixed names, else the `FILE_ATTRIBUTE_HIDDEN` attribute
(false when the extra metadata read fails, which `win_hidden_attr`
already accounts for). `name.starts_with('.')` is taken on the
character list. -/
def is_hidden_file (name : String) (win_hidden_attr : Bool) : Bool :=
  if List.isPrefixOf ".".data name.data then true else win_hidden_attr

/-- Rust `str::to_lowercase`, character-wise (the names this system
compares are ASCII, where the two agree). -/
def rust_to_lowercase (s : String) : List Char := s.data.map Char.toLower

/-- Lexicographic comparison of character lists by code point; agrees
with Rust's byte-wise `str` ordering (UTF-8 preserves code-point
order). -/
def chars_cmp : List Char → List Char → Ordering
  | [], [] => .eq
  | [], _ :: _ => .lt
  | _ :: _, [] => .gt
  | a :: as, b :: bs =>
    if a.toNat < b.toNat then .lt
    else if b.toNat < a.toNat then .gt
    else chars_cmp as bs

/-- The comparator passed to `entries.sort_by` (filesystem.rs lines
58-64): directories first, then case-insensitive name order. -/
def entry_cmp (a b : FileEntry) : Ordering :=
  match a.is_dir, b.is_dir with
  | true, false => .lt
  | false, true => .gt
  | _, _ => chars_cmp (rust_to_lowercase a.name) (rust_to_lowercase b.name)

/-- `sort_by` with comparator `c` is a stable sort placing `a` before `b`
whenever `c a b ≠ Greater`. -/
def entry_le (a b : FileEntry) : Bool := entry_cmp a b ≠ .gt

/-- Stable insertion used to model `Vec::sort_by` (a stable sort; the
output of a stable sort is uniquely determined by the comparator and the
input order, so any stable sort computes it). -/
def stable_insert (le : FileEntry → FileEntry → Bool) (a : FileEntry) :
    List FileEntry → List FileEntry
  | [] => [a]
  | b :: bs => if le a b then a :: b :: bs else b :: stable_insert le a bs

/-- Stable sort modelling `entries.sort_by` (filesystem.rs line 58). -/
def stable_sort_by (le : FileEntry → FileEntry → Bool) :
    List FileEntry → List FileEntry
  | [] => []
  | a :: as => stable_insert le a (stable_sort_by le as)

/-- The body of the `for` loop (filesystem.rs lines 31-55): skip
unreadable entries, build a `FileEntry`. -/
def raw_to_entry (r : RawEntry) : Option FileEntry :=
  if r.entry_ok = false then none
  else if r.metadata_ok = false then none
  else
    some
      { name := r.name, path := r.path, is_dir := r.is_dir,
        is_hidden := is_hidden_file r.name r.win_hidden_attr,
        size := if r.is_dir then 0 else r.len }

/-- `read_directory` (filesystem.rs lines 14-67). -/
def read_directory (path : String) (env : DirEnv) :
    Except String (List FileEntry) :=
  if env.path_exists = false then
    .error ("Directory does not exist: " ++ path)
  else if env.path_is_dir = false then
    .error ("Path is not a directory: " ++ path)
  else
    match env.read_dir with
    | .error e => .error ("Failed to read directory: " ++ e)
    | .ok raw => .ok (stable_sort_by entry_le (raw.filterMap raw_to_entry))

/-- `get_home_directory` (filesystem.rs lines 69-74), as a function of
the two environment variables it consults. -/
def get_home_directory (userprofile home : Option String) :
    Except String String :=
  match userprofile with
  | some v => .ok v
  | none =>
    match home with
    | some v => .ok v
    | none => .error "Could not determine home directory"

/-! ## Error classification (spec section 7)

The source reports errors as strings; each failure site uses a fixed
message prefix, so the error kind of spec section 7 is recoverable from
the value. `classify_error` maps each message to its kind. -/

inductive ErrorKind where
  | notFound
  | idOverflow
  | deviceError
  | spawnError
  | ioError
deriving Repr, DecidableEq

def classify_error (msg : String) : Option ErrorKind :=
  let cs := msg.data
  if List.isPrefixOf "Failed to open PTY".data cs then some .deviceError
  else if List.isPrefixOf "Failed to spawn command".data cs then
    some .spawnError
  else if List.isPrefixOf "Failed to get writer".data cs then
    some .deviceError
  else if List.isPrefixOf "Failed to get reader".data cs then
    some .deviceError
  else if List.isPrefixOf "Failed to write to terminal".data cs then
    some .ioError
  else if List.isPrefixOf "Failed to flush terminal".data cs then
    some .ioError
  else if List.isPrefixOf "Failed to resize terminal".data cs then
    some .deviceError
  else if List.isPrefixOf "Terminal ".data cs &&
      List.isSuffixOf " not found".data cs then some .notFound
  else if List.isPrefixOf "Terminal ID overflow".data cs then
    some .idOverflow
  else none

/-! ## Sample environments for concrete witnesses -/

def sampleSpawnEnv : SpawnEnv :=
  { openpty := .ok 10, spawn_command := .ok 11, take_writer := .ok 12,
    try_clone_reader := .ok 13, userprofile := some "C:/Users/u",
    home := none, now := "2026-01-01T00:00:00+00:00" }

def sampleWriteEnv : WriteEnv := { write_all := .ok (), flush := .ok () }

def sampleResizeEnv : ResizeEnv := { resize := .ok () }

/-- The directory listing of the C8 example: `.git` (dir),
`Cargo.toml` (file, 120 bytes), `src` (dir). -/
def exampleListing : List RawEntry :=
  [ { entry_ok := true, metadata_ok := true, name := ".git",
      path := "/repo/.git", is_dir := true, win_hidden_attr := false,
      len := 0 },
    { entry_ok := true, metadata_ok := true, name := "Cargo.toml",
      path := "/repo/Cargo.toml", is_dir := false, win_hidden_attr := false,
      len := 120 },
    { entry_ok := true, metadata_ok := true, name := "src",
      path := "/repo/src", is_dir := true, win_hidden_attr := false,
      len := 0 } ]

def exampleDirEnv : DirEnv :=
  { path_exists := true, path_is_dir := true, read_dir := .ok exampleListing }

/-! # Theorems -/

/-! ## Helper lemmas: recognising message prefixes and suffixes -/

theorem isPrefixOf_append_self (p rest : List Char) :
    List.isPrefixOf p (p ++ rest) = true := by
  simp

theorem isSuffixOf_append_self (s pre : List Char) :
    List.isSuffixOf s (pre ++ s) = true := by
  simp

/-- When `p` and `c` diverge within their common length, no extension of
`c` has `p` as a prefix. -/
theorem isPrefixOf_append_of_ne (p c rest : List Char)
    (h1 : List.isPrefixOf p c = false) (h2 : List.isPrefixOf c p = false) :
    List.isPrefixOf p (c ++ rest) = false := by
  induction p generalizing c with
  | nil => simp at h1
  | cons a as ih =>
    cases c with
    | nil => simp at h2
    | cons b bs =>
      rw [List.isPrefixOf_cons₂] at h1 h2
      rw [List.cons_append, List.isPrefixOf_cons₂]
      by_cases hab : a = b
      · subst hab
        simp only [BEq.refl, Bool.true_and] at h1 h2 ⊢
        exact ih bs h1 h2
      · simp [beq_iff_eq, hab]

theorem classify_not_found (id : Nat) :
    classify_error (not_found_msg id) = some .notFound := by
  have hd : (not_found_msg id).data =
      "Terminal ".data ++ ((toString id).data ++ " not found".data) := by
    simp [not_found_msg]
  have hsuf : (not_found_msg id).data =
      ("Terminal ".data ++ (toString id).data) ++ " not found".data := by
    simp [not_found_msg]
  simp only [classify_error, hd]
  rw [isPrefixOf_append_of_ne _ _ _ (by decide) (by decide),
    isPrefixOf_append_of_ne _ _ _ (by decide) (by decide),
    isPrefixOf_append_of_ne _ _ _ (by decide) (by decide),
    isPrefixOf_append_of_ne _ _ _ (by decide) (by decide),
    isPrefixOf_append_of_ne _ _ _ (by decide) (by decide),
    isPrefixOf_append_of_ne _ _ _ (by decide) (by decide),
    isPrefixOf_append_of_ne _ _ _ (by decide) (by decide),
    isPrefixOf_append_self]
  rw [← hd, hsuf, isSuffixOf_append_self]
  rfl

theorem classify_overflow :
    classify_error "Terminal ID overflow - please restart the application" =
      some .idOverflow := by decide

theorem classify_open_pty (e : String) :
    classify_error ("Failed to open PTY: " ++ e) = some .deviceError := by
  have hd : ("Failed to open PTY: " ++ e).data =
      "Failed to open PTY".data ++ (": ".data ++ e.data) := by
    simp
  simp only [classify_error, hd, isPrefixOf_append_self]
  rfl

theorem classify_spawn_command (e : String) :
    classify_error ("Failed to spawn command: " ++ e) = some .spawnError := by
  have hd : ("Failed to spawn command: " ++ e).data =
      "Failed to spawn command".data ++ (": ".data ++ e.data) := by
    simp
  simp only [classify_error, hd]
  rw [isPrefixOf_append_of_ne _ _ _ (by decide) (by decide),
    isPrefixOf_append_self]
  rfl

theorem classify_get_writer (e : String) :
    classify_error ("Failed to get writer: " ++ e) = some .deviceError := by
  have hd : ("Failed to get writer: " ++ e).data =
      "Failed to get writer".data ++ (": ".data ++ e.data) := by
    simp
  simp only [classify_error, hd]
  rw [isPrefixOf_append_of_ne _ _ _ (by decide) (by decide),
    isPrefixOf_append_of_ne _ _ _ (by decide) (by decide),
    isPrefixOf_append_self]
  rfl

theorem classify_get_reader (e : String) :
    classify_error ("Failed to get reader: " ++ e) = some .deviceError := by
  have hd : ("Failed to get reader: " ++ e).data =
      "Failed to get reader".data ++ (": ".data ++ e.data) := by
    simp
  simp only [classify_error, hd]
  rw [isPrefixOf_append_of_ne _ _ _ (by decide) (by decide),
    isPrefixOf_append_of_ne _ _ _ (by decide) (by decide),
    isPrefixOf_append_of_ne _ _ _ (by decide) (by decide),
    isPrefixOf_append_self]
  rfl

theorem classify_write (e : String) :
    classify_error ("Failed to write to terminal: " ++ e) = some .ioError := by
  have hd : ("Failed to write to terminal: " ++ e).data =
      "Failed to write to terminal".data ++ (": ".data ++ e.data) := by
    simp
  simp only [classify_error, hd]
  rw [isPrefixOf_append_of_ne _ _ _ (by decide) (by decide),
    isPrefixOf_append_of_ne _ _ _ (by decide) (by decide),
    isPrefixOf_append_of_ne _ _ _ (by decide) (by decide),
    isPrefixOf_append_of_ne _ _ _ (by decide) (by decide),
    isPrefixOf_append_self]
  rfl

theorem classify_flush (e : String) :
    classify_error ("Failed to flush terminal: " ++ e) = some .ioError := by
  have hd : ("Failed to flush terminal: " ++ e).data =
      "Failed to flush terminal".data ++ (": ".data ++ e.data) := by
    simp
  simp only [classify_error, hd]
  rw [isPrefixOf_append_of_ne _ _ _ (by decide) (by decide),
    isPrefixOf_append_of_ne _ _ _ (by decide) (by decide),
    isPrefixOf_append_of_ne _ _ _ (by decide) (by decide),
    isPrefixOf_append_of_ne _ _ _ (by decide) (by decide),
    isPrefixOf_append_of_ne _ _ _ (by decide) (by decide),
    isPrefixOf_append_self]
  rfl

theorem classify_resize (e : String) :
    classify_error ("Failed to resize terminal: " ++ e) =
      some .deviceError := by
  have hd : ("Failed to resize terminal: " ++ e).data =
      "Failed to resize terminal".data ++ (": ".data ++ e.data) := by
    simp
  simp only [classify_error, hd]
  rw [isPrefixOf_append_of_ne _ _ _ (by decide) (by decide),
    isPrefixOf_append_of_ne _ _ _ (by decide) (by decide),
    isPrefixOf_append_of_ne _ _ _ (by decide) (by decide),
    isPrefixOf_append_of_ne _ _ _ (by decide) (by decide),
    isPrefixOf_append_of_ne _ _ _ (by decide) (by decide),
    isPrefixOf_append_of_ne _ _ _ (by decide) (by decide),
    isPrefixOf_append_self]
  rfl

/-! ## C4: id overflow aborts creation with no side effects -/

/-- C4: when the id allocator has reached its maximum, `spawn_terminal`
returns the IdOverflow error, the state (registry and id counter) is
unchanged, and no external side effect (pty open, child spawn, reader
start) is performed. -/
theorem spawn_overflow_no_side_effects (env : SpawnEnv) (st : ManagerState)
    (cwd name : Option String) (h : MAX_TERMINAL_ID ≤ st.next_terminal_id) :
    spawn_terminal env st cwd name =
      (.error "Terminal ID overflow - please restart the application",
        st, []) := by
  unfold spawn_terminal
  simp only [ge_iff_le, if_pos h]

/-- Witness for C4 at a concrete state sitting at the allocator maximum. -/
theorem spawn_overflow_no_side_effects_witness :
    spawn_terminal sampleSpawnEnv
        { next_terminal_id := MAX_TERMINAL_ID, terminals := [] } none none =
      (.error "Terminal ID overflow - please restart the application",
        { next_terminal_id := MAX_TERMINAL_ID, terminals := [] }, []) :=
  spawn_overflow_no_side_effects sampleSpawnEnv
    { next_terminal_id := MAX_TERMINAL_ID, terminals := [] } none none
    (Nat.le_refl _)

/-! ## C6: working-directory resolution in `spawn_terminal` -/

/-- C6: the `cwd` recorded in the metadata returned by a successful
`spawn_terminal` is the caller-supplied value when present, otherwise the
home-directory environment resolution (`USERPROFILE` then `HOME`, exactly
`get_home_directory`), otherwise the literal ".". -/
theorem spawn_cwd_resolution (env : SpawnEnv) (st : ManagerState)
    (cwd name : Option String) (info : TerminalInfo) (st' : ManagerState)
    (effs : List Effect)
    (h : spawn_terminal env st cwd name = (.ok info, st', effs)) :
    info.cwd =
      match cwd with
      | some c => c
      | none =>
        match get_home_directory env.userprofile env.home with
        | .ok home => home
        | .error _ => "." := by
  obtain ⟨op, sc, tw, tr, up, hm, nw⟩ := env
  simp only [spawn_terminal, ge_iff_le] at h
  by_cases hov : MAX_TERMINAL_ID ≤ st.next_terminal_id
  · rw [if_pos hov] at h
    exact absurd h (by simp)
  · rw [if_neg hov] at h
    cases op with
    | error e => simp at h
    | ok pty =>
      cases sc with
      | error e => simp at h
      | ok child =>
        cases tw with
        | error e => simp at h
        | ok wr =>
          cases tr with
          | error e => simp at h
          | ok rd =>
            simp only [Prod.mk.injEq, Except.ok.injEq] at h
            obtain ⟨hinfo, -, -⟩ := h
            subst hinfo
            cases cwd with
            | some c => rfl
            | none =>
              cases up with
              | some v => rfl
              | none =>
                cases hm with
                | some v => rfl
                | none => rfl

/-- Witness for C6: creating with no explicit cwd and `USERPROFILE` set
records the `USERPROFILE` value. -/
theorem spawn_cwd_resolution_witness :
    TerminalInfo.cwd
        { id := 1, name := "Terminal 1", cwd := "C:/Users/u",
          created_at := "2026-01-01T00:00:00+00:00" } = "C:/Users/u" :=
  spawn_cwd_resolution sampleSpawnEnv initialManagerState none none
    { id := 1, name := "Terminal 1", cwd := "C:/Users/u",
      created_at := "2026-01-01T00:00:00+00:00" }
    { next_terminal_id := 2,
      terminals :=
        [(1,
          { info :=
              { id := 1, name := "Terminal 1", cwd := "C:/Users/u",
                created_at := "2026-01-01T00:00:00+00:00" },
            pty_pair := 10, writer := 12 })] }
    [.openedPty, .spawnedChild, .startedReader 1] (by rfl)

/-! ## C10: default session name -/

/-- C10: a successful `spawn_terminal` with the name argument absent
names the session "Terminal N" where N is the returned id; a supplied
name is used verbatim. -/
theorem spawn_default_name (env : SpawnEnv) (st : ManagerState)
    (cwd name : Option String) (info : TerminalInfo) (st' : ManagerState)
    (effs : List Effect)
    (h : spawn_terminal env st cwd name = (.ok info, st', effs)) :
    info.name =
      match name with
      | some n => n
      | none => "Terminal " ++ toString info.id := by
  obtain ⟨op, sc, tw, tr, up, hm, nw⟩ := env
  simp only [spawn_terminal, ge_iff_le] at h
  by_cases hov : MAX_TERMINAL_ID ≤ st.next_terminal_id
  · rw [if_pos hov] at h
    exact absurd h (by simp)
  · rw [if_neg hov] at h
    cases op with
    | error e => simp at h
    | ok pty =>
      cases sc with
      | error e => simp at h
      | ok child =>
        cases tw with
        | error e => simp at h
        | ok wr =>
          cases tr with
          | error e => simp at h
          | ok rd =>
            simp only [Prod.mk.injEq, Except.ok.injEq] at h
            obtain ⟨hinfo, -, -⟩ := h
            subst hinfo
            cases name with
            | some n => rfl
            | none => rfl

/-- Witness for C10: the first session created without a name is called
"Terminal 1". -/
theorem spawn_default_name_witness :
    TerminalInfo.name
        { id := 1, name := "Terminal 1", cwd := "C:/Users/u",
          created_at := "2026-01-01T00:00:00+00:00" } = "Terminal 1" :=
  spawn_default_name sampleSpawnEnv initialManagerState none none
    { id := 1, name := "Terminal 1", cwd := "C:/Users/u",
      created_at := "2026-01-01T00:00:00+00:00" }
    { next_terminal_id := 2,
      terminals :=
        [(1,
          { info :=
              { id := 1, name := "Terminal 1", cwd := "C:/Users/u",
                created_at := "2026-01-01T00:00:00+00:00" },
            pty_pair := 10, writer := 12 })] }
    [.openedPty, .spawnedChild, .startedReader 1] (by rfl)

/-! ## C5: every operation's error identifies a specific kind -/

/-- C5: every error any Manager operation can return carries a value
identifying one of the kinds NotFound, IdOverflow, DeviceError,
SpawnError, IoError: `classify_error` recovers a kind from every error
message any operation produces, for every input. -/
theorem all_errors_have_kind (senv : SpawnEnv) (wenv : WriteEnv)
    (renv : ResizeEnv) (st : ManagerState) (cwd name : Option String)
    (id : Nat) (data : String) (cols rows : Nat) (newCwd : String) :
    (∀ msg, (spawn_terminal senv st cwd name).1 = .error msg →
      (classify_error msg).isSome = true)
    ∧ (∀ msg, (write_to_terminal wenv st id data).1 = .error msg →
      (classify_error msg).isSome = true)
    ∧ (∀ msg, (resize_terminal renv st id cols rows).1 = .error msg →
      (classify_error msg).isSome = true)
    ∧ (∀ msg, (close_terminal st id).1 = .error msg →
      (classify_error msg).isSome = true)
    ∧ (∀ msg, (update_terminal_cwd st id newCwd).1 = .error msg →
      (classify_error msg).isSome = true) := by
  have hnf : ∀ j : Nat,
      (classify_error ("Terminal " ++ toString j ++ " not found")).isSome =
        true := by
    intro j
    have h := classify_not_found j
    simp only [not_found_msg] at h
    rw [h]
    rfl
  refine ⟨?_, ?_, ?_, ?_, ?_⟩
  · intro msg h
    obtain ⟨op, sc, tw, tr, up, hm, nw⟩ := senv
    simp only [spawn_terminal, ge_iff_le] at h
    by_cases hov : MAX_TERMINAL_ID ≤ st.next_terminal_id
    · rw [if_pos hov] at h
      simp only [Except.error.injEq] at h
      rw [← h, classify_overflow]
      rfl
    · rw [if_neg hov] at h
      cases op with
      | error e =>
        simp only [Except.error.injEq] at h
        rw [← h, classify_open_pty]
        rfl
      | ok pty =>
        cases sc with
        | error e =>
          simp only [Except.error.injEq] at h
          rw [← h, classify_spawn_command]
          rfl
        | ok child =>
          cases tw with
          | error e =>
            simp only [Except.error.injEq] at h
            rw [← h, classify_get_writer]
            rfl
          | ok wr =>
            cases tr with
            | error e =>
              simp only [Except.error.injEq] at h
              rw [← h, classify_get_reader]
              rfl
            | ok rd => simp at h
  · intro msg h
    obtain ⟨wa, fl⟩ := wenv
    simp only [write_to_terminal] at h
    cases hl : mapLookup st.terminals id with
    | none =>
      rw [hl] at h
      simp only [Except.error.injEq] at h
      rw [← h]
      exact hnf id
    | some inst =>
      rw [hl] at h
      cases wa with
      | error e =>
        simp only [Except.error.injEq] at h
        rw [← h, classify_write]
        rfl
      | ok u =>
        cases fl with
        | error e =>
          simp only [Except.error.injEq] at h
          rw [← h, classify_flush]
          rfl
        | ok u2 => simp at h
  · intro msg h
    obtain ⟨rz⟩ := renv
    simp only [resize_terminal] at h
    cases hl : mapLookup st.terminals id with
    | none =>
      rw [hl] at h
      simp only [Except.error.injEq] at h
      rw [← h]
      exact hnf id
    | some inst =>
      rw [hl] at h
      cases rz with
      | error e =>
        simp only [Except.error.injEq] at h
        rw [← h, classify_resize]
        rfl
      | ok u => simp at h
  · intro msg h
    simp only [close_terminal] at h
    cases hl : mapLookup st.terminals id with
    | none =>
      rw [hl] at h
      simp only [Except.error.injEq] at h
      rw [← h]
      exact hnf id
    | some inst =>
      rw [hl] at h
      simp at h
  · intro msg h
    simp only [update_terminal_cwd] at h
    cases hl : mapLookup st.terminals id with
    | none =>
      rw [hl] at h
      simp only [Except.error.injEq] at h
      rw [← h]
      exact hnf id
    | some inst =>
      rw [hl] at h
      simp at h

/-- Witness for C5: the NotFound error of a write to a closed manager
classifies. -/
theorem all_errors_have_kind_witness :
    (classify_error "Terminal 3 not found").isSome = true :=
  (all_errors_have_kind sampleSpawnEnv sampleWriteEnv sampleResizeEnv
      initialManagerState none none 3 "x" 80 24 "/tmp").2.1
    "Terminal 3 not found" (by rfl)

/-! ## Registry map lemmas -/

theorem mapLookup_mapRemove_self (m : List (Nat × TerminalInstance))
    (k : Nat) : mapLookup (mapRemove m k) k = none := by
  induction m with
  | nil => rfl
  | cons p rest ih =>
    obtain ⟨j, v⟩ := p
    by_cases hj : j = k
    · simpa [mapRemove, List.filter_cons, hj] using ih
    · simpa [mapRemove, List.filter_cons, hj, mapLookup] using ih

theorem mapLookup_mapRemove_other (m : List (Nat × TerminalInstance))
    (k j : Nat) (h : j ≠ k) :
    mapLookup (mapRemove m k) j = mapLookup m j := by
  induction m with
  | nil => rfl
  | cons p rest ih =>
    obtain ⟨i, v⟩ := p
    by_cases hi : i = k
    · subst hi
      simp only [mapRemove, List.filter_cons, decide_not, decide_True,
        Bool.not_true] at ih ⊢
      simpa [mapLookup, Ne.symm h] using ih
    · simp only [mapRemove, List.filter_cons] at ih ⊢
      simp only [hi, decide_not]
      by_cases hij : i = j
      · simp [mapLookup, hij]
      · simpa [mapLookup, hij, hi] using ih

theorem mapLookup_mapInsert (m : List (Nat × TerminalInstance))
    (k j : Nat) (v : TerminalInstance) :
    mapLookup (mapInsert m k v) j =
      if k = j then some v else mapLookup m j := by
  induction m with
  | nil => simp [mapInsert, mapLookup]
  | cons p rest ih =>
    obtain ⟨i, w⟩ := p
    by_cases hik : i = k
    · subst hik
      by_cases hij : i = j
      · simp [mapInsert, mapLookup, hij]
      · simp [mapInsert, mapLookup, hij]
    · by_cases hij : i = j
      · subst hij
        have : ¬ k = i := fun hc => hik hc.symm
        simp [mapInsert, hik, mapLookup, this]
      · simp [mapInsert, hik, mapLookup, hij, ih]

/-! ## C3: a closed id is NotFound for every id-taking operation -/

/-- C3: after a successful `close_terminal id`, each of write, resize and
updateCwd on that id reports NotFound; and in general, every id-taking
operation returns the NotFound error exactly when the id is absent from
the registry. -/
theorem closed_id_not_found (st : ManagerState) (id : Nat)
    (wenv : WriteEnv) (renv : ResizeEnv) (data : String) (cols rows : Nat)
    (newCwd : String) :
    ((close_terminal st id).1 = .ok () →
      (write_to_terminal wenv (close_terminal st id).2 id data).1 =
          .error (not_found_msg id)
        ∧ (resize_terminal renv (close_terminal st id).2 id cols rows).1 =
          .error (not_found_msg id)
        ∧ (update_terminal_cwd (close_terminal st id).2 id newCwd).1 =
          .error (not_found_msg id))
    ∧ ((write_to_terminal wenv st id data).1 = .error (not_found_msg id) ↔
        mapLookup st.terminals id = none)
    ∧ ((resize_terminal renv st id cols rows).1 = .error (not_found_msg id) ↔
        mapLookup st.terminals id = none)
    ∧ ((close_terminal st id).1 = .error (not_found_msg id) ↔
        mapLookup st.terminals id = none)
    ∧ ((update_terminal_cwd st id newCwd).1 = .error (not_found_msg id) ↔
        mapLookup st.terminals id = none) := by
  have hwmsg : ∀ e, ("Failed to write to terminal: " ++ e) ≠
      not_found_msg id := by
    intro e hc
    have h1 := classify_write e
    rw [hc, classify_not_found] at h1
    simp at h1
  have hfmsg : ∀ e, ("Failed to flush terminal: " ++ e) ≠
      not_found_msg id := by
    intro e hc
    have h1 := classify_flush e
    rw [hc, classify_not_found] at h1
    simp at h1
  have hrmsg : ∀ e, ("Failed to resize terminal: " ++ e) ≠
      not_found_msg id := by
    intro e hc
    have h1 := classify_resize e
    rw [hc, classify_not_found] at h1
    simp at h1
  have hwrite : (write_to_terminal wenv st id data).1 =
      .error (not_found_msg id) ↔ mapLookup st.terminals id = none := by
    obtain ⟨wa, fl⟩ := wenv
    simp only [write_to_terminal]
    cases hl : mapLookup st.terminals id with
    | none => simp [not_found_msg]
    | some inst =>
      cases wa with
      | error e => simpa using hwmsg e
      | ok u =>
        cases fl with
        | error e => simpa using hfmsg e
        | ok u2 => simp
  have hresize : (resize_terminal renv st id cols rows).1 =
      .error (not_found_msg id) ↔ mapLookup st.terminals id = none := by
    obtain ⟨rz⟩ := renv
    simp only [resize_terminal]
    cases hl : mapLookup st.terminals id with
    | none => simp [not_found_msg]
    | some inst =>
      cases rz with
      | error e => simpa using hrmsg e
      | ok u => simp
  have hclose : (close_terminal st id).1 = .error (not_found_msg id) ↔
      mapLookup st.terminals id = none := by
    simp only [close_terminal]
    cases hl : mapLookup st.terminals id with
    | none => simp [not_found_msg]
    | some inst => simp
  have hupdate : (update_terminal_cwd st id newCwd).1 =
      .error (not_found_msg id) ↔ mapLookup st.terminals id = none := by
    simp only [update_terminal_cwd]
    cases hl : mapLookup st.terminals id with
    | none => simp [not_found_msg]
    | some inst => simp
  refine ⟨?_, hwrite, hresize, hclose, hupdate⟩
  intro hok
  have habsent : mapLookup (close_terminal st id).2.terminals id = none := by
    simp only [close_terminal] at hok ⊢
    cases hl : mapLookup st.terminals id with
    | none => rw [hl] at hok; simp at hok
    | some inst => exact mapLookup_mapRemove_self st.terminals id
  constructor
  · obtain ⟨wa, fl⟩ := wenv
    simp only [write_to_terminal, habsent, not_found_msg]
  constructor
  · obtain ⟨rz⟩ := renv
    simp only [resize_terminal, habsent, not_found_msg]
  · simp only [update_terminal_cwd, habsent, not_found_msg]

/-- Witness for C3: close then write on a one-session manager. -/
theorem closed_id_not_found_witness :
    (write_to_terminal sampleWriteEnv
        (close_terminal
          { next_terminal_id := 2,
            terminals :=
              [(1,
                { info :=
                    { id := 1, name := "Terminal 1", cwd := ".",
                      created_at := "t" },
                  pty_pair := 10, writer := 12 })] } 1).2 1 "ls").1 =
      .error (not_found_msg 1) :=
  ((closed_id_not_found
      { next_terminal_id := 2,
        terminals :=
          [(1,
            { info :=
                { id := 1, name := "Terminal 1", cwd := ".",
                  created_at := "t" },
              pty_pair := 10, writer := 12 })] } 1 sampleWriteEnv
      sampleResizeEnv "ls" 80 24 "/tmp").1 (by rfl)).1

/-! ## C7: `update_terminal_cwd` frame conditions -/

/-- C7: a successful `update_terminal_cwd id cwd` overwrites only the
`cwd` field of session `id` (id, name, created_at preserved) and leaves
every other session and the id counter untouched; and no other operation
mutates registered metadata: write and resize leave the state exactly
unchanged, close only removes (all other entries keep their lookup),
and a create can change the lookup of no key but the fresh id. -/
theorem update_cwd_frame (st : ManagerState) (id : Nat) (newCwd : String)
    (wenv : WriteEnv) (renv : ResizeEnv) (senv : SpawnEnv) (id2 : Nat)
    (data : String) (cols rows : Nat) (cwd2 name2 : Option String) :
    (∀ inst, mapLookup st.terminals id = some inst →
      (update_terminal_cwd st id newCwd).1 = .ok ()
      ∧ mapLookup (update_terminal_cwd st id newCwd).2.terminals id =
          some { inst with info := { inst.info with cwd := newCwd } }
      ∧ ∀ j, j ≠ id →
          mapLookup (update_terminal_cwd st id newCwd).2.terminals j =
            mapLookup st.terminals j)
    ∧ (update_terminal_cwd st id newCwd).2.next_terminal_id =
        st.next_terminal_id
    ∧ (write_to_terminal wenv st id2 data).2 = st
    ∧ (resize_terminal renv st id2 cols rows).2 = st
    ∧ (∀ j, j ≠ id2 →
        mapLookup (close_terminal st id2).2.terminals j =
          mapLookup st.terminals j)
    ∧ (∀ j,
        mapLookup (spawn_terminal senv st cwd2 name2).2.1.terminals j ≠
            mapLookup st.terminals j →
          j = st.next_terminal_id) := by
  refine ⟨?_, ?_, ?_, ?_, ?_, ?_⟩
  · intro inst hl
    simp only [update_terminal_cwd, hl]
    refine ⟨trivial, ?_, ?_⟩
    · rw [mapLookup_mapInsert]
      simp
    · intro j hj
      rw [mapLookup_mapInsert, if_neg (fun hc : id = j => hj hc.symm)]
  · simp only [update_terminal_cwd]
    cases hl : mapLookup st.terminals id with
    | none => rfl
    | some inst => rfl
  · obtain ⟨wa, fl⟩ := wenv
    simp only [write_to_terminal]
    cases hl : mapLookup st.terminals id2 with
    | none => rfl
    | some inst =>
      cases wa with
      | error e => rfl
      | ok u =>
        cases fl with
        | error e => rfl
        | ok u2 => rfl
  · obtain ⟨rz⟩ := renv
    simp only [resize_terminal]
    cases hl : mapLookup st.terminals id2 with
    | none => rfl
    | some inst =>
      cases rz with
      | error e => rfl
      | ok u => rfl
  · intro j hj
    simp only [close_terminal]
    cases hl : mapLookup st.terminals id2 with
    | none => rfl
    | some inst => exact mapLookup_mapRemove_other st.terminals id2 j hj
  · intro j hj
    by_contra hne
    apply hj
    obtain ⟨op, sc, tw, tr, up, hm, nw⟩ := senv
    simp only [spawn_terminal, ge_iff_le]
    by_cases hov : MAX_TERMINAL_ID ≤ st.next_terminal_id
    · rw [if_pos hov]
    · rw [if_neg hov]
      cases op with
      | error e => rfl
      | ok pty =>
        cases sc with
        | error e => rfl
        | ok child =>
          cases tw with
          | error e => rfl
          | ok wr =>
            cases tr with
            | error e => rfl
            | ok rd =>
              rw [mapLookup_mapInsert,
                if_neg (fun hc : st.next_terminal_id = j => hne hc.symm)]

/-- Witness for C7 on a two-session manager: updating session 1 leaves
session 2 untouched and preserves the other fields of session 1. -/
theorem update_cwd_frame_witness :
    (update_terminal_cwd
          { next_terminal_id := 3,
            terminals :=
              [(1,
                { info :=
                    { id := 1, name := "Terminal 1", cwd := ".",
                      created_at := "t1" },
                  pty_pair := 10, writer := 12 }),
               (2,
                { info :=
                    { id := 2, name := "Terminal 2", cwd := ".",
                      created_at := "t2" },
                  pty_pair := 20, writer := 22 })] } 1 "/work").1 = .ok ()
    ∧ mapLookup
        (update_terminal_cwd
            { next_terminal_id := 3,
              terminals :=
                [(1,
                  { info :=
                      { id := 1, name := "Terminal 1", cwd := ".",
                        created_at := "t1" },
                    pty_pair := 10, writer := 12 }),
                 (2,
                  { info :=
                      { id := 2, name := "Terminal 2", cwd := ".",
                        created_at := "t2" },
                    pty_pair := 20, writer := 22 })] } 1 "/work").2.terminals
        1 =
      some
        { info :=
            { id := 1, name := "Terminal 1", cwd := "/work",
              created_at := "t1" },
          pty_pair := 10, writer := 12 }
    ∧ mapLookup
        (update_terminal_cwd
            { next_terminal_id := 3,
              terminals :=
                [(1,
                  { info :=
                      { id := 1, name := "Terminal 1", cwd := ".",
                        created_at := "t1" },
                    pty_pair := 10, writer := 12 }),
                 (2,
                  { info :=
                      { id := 2, name := "Terminal 2", cwd := ".",
                        created_at := "t2" },
                    pty_pair := 20, writer := 22 })] } 1 "/work").2.terminals
        2 =
      some
        { info :=
            { id := 2, name := "Terminal 2", cwd := ".",
              created_at := "t2" },
          pty_pair := 20, writer := 22 } := by
  have h :=
    (update_cwd_frame
        { next_terminal_id := 3,
          terminals :=
            [(1,
              { info :=
                  { id := 1, name := "Terminal 1", cwd := ".",
                    created_at := "t1" },
                pty_pair := 10, writer := 12 }),
             (2,
              { info :=
                  { id := 2, name := "Terminal 2", cwd := ".",
                    created_at := "t2" },
                pty_pair := 20, writer := 22 })] } 1 "/work" sampleWriteEnv
        sampleResizeEnv sampleSpawnEnv 1 "x" 80 24 none none).1
      { info :=
          { id := 1, name := "Terminal 1", cwd := ".", created_at := "t1" },
        pty_pair := 10, writer := 12 } (by rfl)
  exact ⟨h.1, h.2.1, (h.2.2 2 (by decide)).trans (by rfl)⟩

/-! ## C1: session ids strictly increase and are never reused -/

/-- A successful create returns the current counter value and advances
the counter by exactly one (the guard keeps the wrapping add below the
32-bit modulus). -/
theorem spawn_created_id (env : SpawnEnv) (st : ManagerState)
    (cwd name : Option String) (info : TerminalInfo) (st' : ManagerState)
    (effs : List Effect)
    (h : spawn_terminal env st cwd name = (.ok info, st', effs)) :
    info.id = st.next_terminal_id
    ∧ st'.next_terminal_id = st.next_terminal_id + 1 := by
  obtain ⟨op, sc, tw, tr, up, hm, nw⟩ := env
  simp only [spawn_terminal, ge_iff_le] at h
  by_cases hov : MAX_TERMINAL_ID ≤ st.next_terminal_id
  · rw [if_pos hov] at h
    exact absurd h (by simp)
  · rw [if_neg hov] at h
    have hmod : (st.next_terminal_id + 1) % U32_MOD =
        st.next_terminal_id + 1 := by
      apply Nat.mod_eq_of_lt
      have h1 : st.next_terminal_id < MAX_TERMINAL_ID := Nat.lt_of_not_le hov
      have h2 : MAX_TERMINAL_ID < U32_MOD := by decide
      omega
    cases op with
    | error e => simp at h
    | ok pty =>
      cases sc with
      | error e => simp at h
      | ok child =>
        cases tw with
        | error e => simp at h
        | ok wr =>
          cases tr with
          | error e => simp at h
          | ok rd =>
            simp only [Prod.mk.injEq, Except.ok.injEq] at h
            obtain ⟨hinfo, hst, -⟩ := h
            subst hinfo
            subst hst
            exact ⟨rfl, hmod⟩

/-- Every Manager call leaves the id counter no smaller. -/
theorem stepOp_next_mono (st : ManagerState) (op : MgrOp) :
    st.next_terminal_id ≤ (stepOp st op).1.next_terminal_id := by
  cases op with
  | create env cwd name =>
    simp only [stepOp]
    rcases hs : spawn_terminal env st cwd name with ⟨res, st2, effs⟩
    cases res with
    | error e =>
      obtain ⟨op2, sc, tw, tr, up, hm, nw⟩ := env
      simp only [spawn_terminal, ge_iff_le] at hs
      by_cases hov : MAX_TERMINAL_ID ≤ st.next_terminal_id
      · rw [if_pos hov] at hs
        simp only [Prod.mk.injEq] at hs
        obtain ⟨-, hst, -⟩ := hs
        subst hst
        exact Nat.le_refl _
      · rw [if_neg hov] at hs
        have hmono : st.next_terminal_id ≤
            (st.next_terminal_id + 1) % U32_MOD := by
          have h1 : st.next_terminal_id < MAX_TERMINAL_ID :=
            Nat.lt_of_not_le hov
          have heq : (st.next_terminal_id + 1) % U32_MOD =
              st.next_terminal_id + 1 := by
            apply Nat.mod_eq_of_lt
            have h2 : MAX_TERMINAL_ID < U32_MOD := by decide
            omega
          omega
        cases op2 with
        | error e2 =>
          simp only [Prod.mk.injEq] at hs
          obtain ⟨-, hst, -⟩ := hs
          subst hst
          exact Nat.le_refl _
        | ok pty =>
          cases sc with
          | error e2 =>
            simp only [Prod.mk.injEq] at hs
            obtain ⟨-, hst, -⟩ := hs
            subst hst
            exact Nat.le_refl _
          | ok child =>
            cases tw with
            | error e2 =>
              simp only [Prod.mk.injEq] at hs
              obtain ⟨-, hst, -⟩ := hs
              subst hst
              exact hmono
            | ok wr =>
              cases tr with
              | error e2 =>
                simp only [Prod.mk.injEq] at hs
                obtain ⟨-, hst, -⟩ := hs
                subst hst
                exact hmono
              | ok rd => simp at hs
    | ok info =>
      have h := spawn_created_id env st cwd name info st2 effs hs
      show st.next_terminal_id ≤ st2.next_terminal_id
      omega
  | write env id data =>
    obtain ⟨wa, fl⟩ := env
    simp only [stepOp, write_to_terminal]
    cases mapLookup st.terminals id with
    | none => exact Nat.le_refl _
    | some inst =>
      cases wa with
      | error e => exact Nat.le_refl _
      | ok u =>
        cases fl with
        | error e => exact Nat.le_refl _
        | ok u2 => exact Nat.le_refl _
  | resize env id cols rows =>
    obtain ⟨rz⟩ := env
    simp only [stepOp, resize_terminal]
    cases mapLookup st.terminals id with
    | none => exact Nat.le_refl _
    | some inst =>
      cases rz with
      | error e => exact Nat.le_refl _
      | ok u => exact Nat.le_refl _
  | close id =>
    simp only [stepOp, close_terminal]
    cases mapLookup st.terminals id with
    | none => exact Nat.le_refl _
    | some inst => exact Nat.le_refl _
  | updateCwd id cwd =>
    simp only [stepOp, update_terminal_cwd]
    cases mapLookup st.terminals id with
    | none => exact Nat.le_refl _
    | some inst => exact Nat.le_refl _

/-- A step that returns metadata is a create that handed out the current
counter value and advanced it by one. -/
theorem stepOp_some (st : ManagerState) (op : MgrOp) (st' : ManagerState)
    (info : TerminalInfo) (h : stepOp st op = (st', some info)) :
    info.id = st.next_terminal_id
    ∧ st'.next_terminal_id = st.next_terminal_id + 1 := by
  cases op with
  | create env cwd name =>
    simp only [stepOp] at h
    rcases hs : spawn_terminal env st cwd name with ⟨res, st2, effs⟩
    rw [hs] at h
    cases res with
    | error e => simp at h
    | ok info2 =>
      simp only [Prod.mk.injEq, Option.some.injEq] at h
      obtain ⟨hst, hinfo⟩ := h
      have hc := spawn_created_id env st cwd name info2 st2 effs hs
      rw [hst, hinfo] at hc
      exact hc
  | write env id data => simp [stepOp] at h
  | resize env id cols rows => simp [stepOp] at h
  | close id => simp [stepOp] at h
  | updateCwd id cwd => simp [stepOp] at h

/-- Every id in the created-ids trace is at least the starting counter
value. -/
theorem createdIds_ge (st : ManagerState) (ops : List MgrOp) :
    ∀ x ∈ createdIds st ops, st.next_terminal_id ≤ x := by
  induction ops generalizing st with
  | nil => intro x hx; simp [createdIds] at hx
  | cons op rest ih =>
    intro x hx
    rcases hstep : stepOp st op with ⟨st', created⟩
    have hmono := stepOp_next_mono st op
    rw [hstep] at hmono
    cases created with
    | none =>
      rw [createdIds, hstep] at hx
      exact Nat.le_trans hmono (ih st' x hx)
    | some info =>
      rw [createdIds, hstep] at hx
      rcases List.mem_cons.mp hx with hx1 | hx2
      · subst hx1
        exact Nat.le_of_eq (stepOp_some st op st' info hstep).1.symm
      · have hid := (stepOp_some st op st' info hstep).2
        have := ih st' x hx2
        omega

/-- C1: over any interleaved sequence of Manager calls, the ids handed
out by successful creates are pairwise strictly increasing (in call
order) and never repeat: closing a session never makes its id available
again. -/
theorem session_ids_strictly_increasing (ops : List MgrOp) :
    List.Pairwise (· < ·) (createdIds initialManagerState ops)
    ∧ (createdIds initialManagerState ops).Nodup := by
  have main : ∀ (ops2 : List MgrOp) (st : ManagerState),
      List.Pairwise (· < ·) (createdIds st ops2) := by
    intro ops2
    induction ops2 with
    | nil => intro st; simp [createdIds]
    | cons op rest ih =>
      intro st
      rcases hstep : stepOp st op with ⟨st', created⟩
      cases created with
      | none =>
        rw [createdIds, hstep]
        exact ih st'
      | some info =>
        rw [createdIds, hstep]
        refine List.Pairwise.cons ?_ (ih st')
        intro x hx
        have hge := createdIds_ge st' rest x hx
        have hsome := stepOp_some st op st' info hstep
        omega
  exact ⟨main ops initialManagerState,
    (main ops initialManagerState).imp Nat.ne_of_lt⟩

/-! ## C2: reader-task closed-notification semantics -/

/-- Whatever the reader loop emits after a `closed` notification is
nothing: `closed` is always the last event. -/
theorem reader_closed_last (id : Nat) (stream : List ReadResult) :
    ∀ pre suf, reader_loop id stream = pre ++ TermEvent.closed id :: suf →
      suf = [] := by
  induction stream with
  | nil =>
    intro pre suf h
    rw [reader_loop] at h
    exact absurd h.symm (List.append_ne_nil_of_right_ne_nil pre (by simp))
  | cons r rest ih =>
    intro pre suf h
    cases r with
    | ok data =>
      cases data with
      | nil =>
        rw [reader_loop] at h
        cases pre with
        | nil =>
          simp only [List.nil_append, List.cons.injEq] at h
          exact h.2.symm
        | cons p ps =>
          simp only [List.cons_append, List.cons.injEq] at h
          exact absurd h.2.symm
            (List.append_ne_nil_of_right_ne_nil ps (by simp))
      | cons b bs =>
        rw [reader_loop] at h
        cases pre with
        | nil => simp at h
        | cons p ps =>
          simp only [List.cons_append, List.cons.injEq] at h
          exact ih ps suf h.2
    | err e =>
      rw [reader_loop] at h
      cases pre with
      | nil =>
        simp only [List.nil_append, List.cons.injEq] at h
        exact h.2.symm
      | cons p ps =>
        simp only [List.cons_append, List.cons.injEq] at h
        exact absurd h.2.symm
          (List.append_ne_nil_of_right_ne_nil ps (by simp))

/-- The loop emits at most one `closed` notification. -/
theorem reader_closed_count (id : Nat) (stream : List ReadResult) :
    (reader_loop id stream).count (TermEvent.closed id) ≤ 1 := by
  induction stream with
  | nil => simp [reader_loop]
  | cons r rest ih =>
    cases r with
    | ok data =>
      cases data with
      | nil => simp [reader_loop]
      | cons b bs =>
        rw [reader_loop]
        rw [List.count_cons_of_ne (by simp)]
        exact ih
    | err e => simp [reader_loop]

/-- The loop emits `closed` exactly when the trace contains a zero-byte
read or an error. -/
theorem reader_closed_iff (id : Nat) (stream : List ReadResult) :
    TermEvent.closed id ∈ reader_loop id stream ↔
      ∃ r ∈ stream, is_terminal_read r = true := by
  induction stream with
  | nil => simp [reader_loop]
  | cons r rest ih =>
    cases r with
    | ok data =>
      cases data with
      | nil =>
        simp [reader_loop, is_terminal_read]
      | cons b bs =>
        rw [reader_loop]
        simp only [List.mem_cons, TermEvent.closed.injEq]
        constructor
        · intro h
          rcases h with h1 | h2
          · exact absurd h1 (by simp)
          · rcases ih.mp h2 with ⟨r2, hr2, ht2⟩
            exact ⟨r2, Or.inr hr2, ht2⟩
        · intro h
          rcases h with ⟨r2, hr2, ht2⟩
          rcases hr2 with hr2a | hr2b
          · subst hr2a
            simp [is_terminal_read] at ht2
          · exact Or.inr (ih.mpr ⟨r2, hr2b, ht2⟩)
    | err e =>
      simp [reader_loop, is_terminal_read]

/-- Once the loop sees its first terminal read it stops: the events do
not depend on anything after it, and exactly the reads up to and
including it are performed (no retry). -/
theorem reader_stops_at_terminal (id : Nat) (pre : List ReadResult)
    (t : ReadResult) (suf : List ReadResult)
    (ht : is_terminal_read t = true)
    (hpre : ∀ r ∈ pre, is_terminal_read r = false) :
    reader_loop id (pre ++ t :: suf) = reader_loop id (pre ++ [t])
    ∧ reader_reads_consumed (pre ++ t :: suf) = pre.length + 1 := by
  induction pre with
  | nil =>
    cases t with
    | ok data =>
      cases data with
      | nil => exact ⟨rfl, rfl⟩
      | cons b bs => simp [is_terminal_read] at ht
    | err e => exact ⟨rfl, rfl⟩
  | cons r pre2 ih =>
    have hr : is_terminal_read r = false := hpre r (List.mem_cons_self r pre2)
    have hrest : ∀ r2 ∈ pre2, is_terminal_read r2 = false := by
      intro r2 hr2
      exact hpre r2 (List.mem_cons_of_mem r hr2)
    cases r with
    | ok data =>
      cases data with
      | nil => simp [is_terminal_read] at hr
      | cons b bs =>
        have h2 := ih hrest
        constructor
        · simp only [List.cons_append, reader_loop, List.append_eq]
          rw [h2.1]
        · simp only [List.cons_append, reader_reads_consumed, List.append_eq]
          rw [h2.2]
          simp only [List.length_cons]
          omega
    | err e => simp [is_terminal_read] at hr

/-- C2: per reader task, `closed(id)` is never followed by any further
notification, is emitted at most once, is emitted exactly when the task
observes a zero-byte read or an I/O error, and after the first such
observation the task performs no further reads. -/
theorem reader_closed_semantics (id : Nat) (stream : List ReadResult) :
    (∀ pre suf, reader_loop id stream = pre ++ TermEvent.closed id :: suf →
      suf = [])
    ∧ (reader_loop id stream).count (TermEvent.closed id) ≤ 1
    ∧ (TermEvent.closed id ∈ reader_loop id stream ↔
        ∃ r ∈ stream, is_terminal_read r = true)
    ∧ (∀ pre t suf, stream = pre ++ t :: suf → is_terminal_read t = true →
        (∀ r ∈ pre, is_terminal_read r = false) →
        reader_loop id stream = reader_loop id (pre ++ [t])
        ∧ reader_reads_consumed stream = pre.length + 1) := by
  refine ⟨reader_closed_last id stream, reader_closed_count id stream,
    reader_closed_iff id stream, ?_⟩
  intro pre t suf hs ht hpre
  rw [hs]
  exact reader_stops_at_terminal id pre t suf ht hpre

/-- Witness for C2: a trace with output, then EOF, then more (ignored)
data — the loop stops at the EOF after two reads. -/
theorem reader_closed_semantics_witness :
    reader_loop 7 [ReadResult.ok [65], ReadResult.ok [], ReadResult.ok [66]] =
        reader_loop 7 ([ReadResult.ok [65]] ++ [ReadResult.ok []])
      ∧ reader_reads_consumed
          [ReadResult.ok [65], ReadResult.ok [], ReadResult.ok [66]] = 2 := by
  have h :=
    (reader_closed_semantics 7
        [ReadResult.ok [65], ReadResult.ok [], ReadResult.ok [66]]).2.2.2
      [ReadResult.ok [65]] (ReadResult.ok []) [ReadResult.ok [66]] rfl rfl
      (by decide)
  exact ⟨h.1, h.2⟩

/-! ## C8: directory listing order, hidden flag and directory sizes -/

theorem mem_stable_insert (le : FileEntry → FileEntry → Bool)
    (x a : FileEntry) (l : List FileEntry) :
    a ∈ stable_insert le x l ↔ a = x ∨ a ∈ l := by
  induction l with
  | nil => simp [stable_insert]
  | cons b bs ih =>
    rw [stable_insert]
    by_cases h : le x b
    · simp [h]
    · simp only [h]
      simp only [Bool.false_eq_true, if_false, List.mem_cons, ih]
      tauto

theorem mem_stable_sort (le : FileEntry → FileEntry → Bool) (a : FileEntry)
    (l : List FileEntry) : a ∈ stable_sort_by le l ↔ a ∈ l := by
  induction l with
  | nil => simp [stable_sort_by]
  | cons b bs ih => simp [stable_sort_by, mem_stable_insert, ih]

theorem chars_cmp_swap (as bs : List Char) :
    chars_cmp bs as = (chars_cmp as bs).swap := by
  induction as generalizing bs with
  | nil => cases bs <;> rfl
  | cons a as2 ih =>
    cases bs with
    | nil => rfl
    | cons b bs2 =>
      rw [chars_cmp, chars_cmp]
      by_cases h1 : a.toNat < b.toNat
      · have h2 : ¬ b.toNat < a.toNat := by omega
        simp [h1, h2, Ordering.swap]
      · by_cases h2 : b.toNat < a.toNat
        · simp [h1, h2, Ordering.swap]
        · simp [h1, h2, ih bs2]

/-- The sort comparator is total. -/
theorem entry_le_total (a b : FileEntry) :
    entry_le a b = true ∨ entry_le b a = true := by
  have hswap : entry_cmp b a = (entry_cmp a b).swap := by
    rw [entry_cmp, entry_cmp]
    rcases ha : a.is_dir <;> rcases hb : b.is_dir
    · exact chars_cmp_swap _ _
    · rfl
    · rfl
    · exact chars_cmp_swap _ _
  simp only [entry_le, ne_eq, decide_not, Bool.not_eq_false',
    decide_eq_true_eq, Bool.not_eq_true, decide_eq_false_iff_not]
  rw [hswap]
  cases entry_cmp a b <;> simp [Ordering.swap]

theorem stable_insert_chain (le : FileEntry → FileEntry → Bool)
    (htot : ∀ a b, le a b = true ∨ le b a = true) (x : FileEntry)
    (l : List FileEntry) (h : List.Chain' (fun a b => le a b = true) l) :
    List.Chain' (fun a b => le a b = true) (stable_insert le x l) := by
  induction l with
  | nil => simp [stable_insert]
  | cons b bs ih =>
    rw [stable_insert]
    by_cases hxb : le x b
    · simp only [hxb, if_true]
      exact List.Chain'.cons hxb h
    · simp only [hxb, Bool.false_eq_true, if_false]
      have hbs : List.Chain' (fun a b => le a b = true) bs := h.tail
      have hbx : le b x = true := by
        rcases htot x b with h1 | h2
        · exact absurd h1 hxb
        · exact h2
      have hins := ih hbs
      cases bs with
      | nil =>
        simp only [stable_insert]
        exact List.Chain'.cons hbx (by simp)
      | cons c cs =>
        rw [stable_insert] at hins ⊢
        by_cases hxc : le x c
        · simp only [hxc, if_true] at hins ⊢
          exact List.Chain'.cons hbx hins
        · simp only [hxc, Bool.false_eq_true, if_false] at hins ⊢
          have hbc : le b c = true := List.chain'_cons.mp h |>.1
          exact List.Chain'.cons hbc hins

theorem stable_sort_chain (le : FileEntry → FileEntry → Bool)
    (htot : ∀ a b, le a b = true ∨ le b a = true) (l : List FileEntry) :
    List.Chain' (fun a b => le a b = true) (stable_sort_by le l) := by
  induction l with
  | nil => simp [stable_sort_by]
  | cons a as ih => exact stable_insert_chain le htot a _ ih

/-- C8 counterexample: on the listing `.git` (dir), `Cargo.toml` (file,
120 bytes), `src` (dir), the claimed output order
`["src", ".git", "Cargo.toml"]` is not what `read_directory` returns:
case-insensitive name order puts `".git"` before `"src"` among the
directories. -/
theorem read_directory_example_counterexample :
    ¬ ((read_directory "/repo" exampleDirEnv).toOption.map
        (List.map FileEntry.name) = some ["src", ".git", "Cargo.toml"]) := by
  decide

/-- C8 (amended): on the example listing the result is
`[".git", "src", "Cargo.toml"]` — directories first, then
case-insensitive name order — with `.git` marked hidden and both
directories reporting size 0; and in general every successful
`read_directory` result is sorted by the directories-first,
case-insensitive comparator, reports size 0 for every directory, and
marks every dot-prefixed name hidden. -/
theorem read_directory_sorted_amended :
    read_directory "/repo" exampleDirEnv =
      .ok
        [ { name := ".git", path := "/repo/.git", is_dir := true,
            is_hidden := true, size := 0 },
          { name := "src", path := "/repo/src", is_dir := true,
            is_hidden := false, size := 0 },
          { name := "Cargo.toml", path := "/repo/Cargo.toml",
            is_dir := false, is_hidden := false, size := 120 } ]
    ∧ (∀ path env l, read_directory path env = .ok l →
        List.Chain' (fun a b => entry_le a b = true) l
        ∧ ∀ e ∈ l, (e.is_dir = true → e.size = 0)
          ∧ (List.isPrefixOf ".".data e.name.data = true →
              e.is_hidden = true)) := by
  constructor
  · rfl
  · intro path env l h
    obtain ⟨pe, pd, rd⟩ := env
    cases pe with
    | false => simp [read_directory] at h
    | true =>
      cases pd with
      | false => simp [read_directory] at h
      | true =>
        cases rd with
        | error e => simp [read_directory] at h
        | ok raw =>
          simp only [read_directory, Bool.true_eq_false, if_false,
            Except.ok.injEq] at h
          subst h
          constructor
          · exact stable_sort_chain entry_le entry_le_total _
          · intro e he
            rw [mem_stable_sort] at he
            rcases List.mem_filterMap.mp he with ⟨r, -, hr⟩
            rw [raw_to_entry] at hr
            by_cases h1 : r.entry_ok = false
            · simp [h1] at hr
            · by_cases h2 : r.metadata_ok = false
              · simp [h1, h2] at hr
              · simp [h1, h2] at hr
                subst hr
                constructor
                · intro hd
                  simp only at hd
                  simp [hd]
                · intro hdot
                  simp only [is_hidden_file]
                  simp only at hdot
                  simp [hdot]

/-- Witness for C8 (amended): the general clauses instantiated on the
example listing's output. -/
theorem read_directory_sorted_amended_witness :
    List.Chain' (fun a b => entry_le a b = true)
        [ { name := ".git", path := "/repo/.git", is_dir := true,
            is_hidden := true, size := 0 },
          { name := "src", path := "/repo/src", is_dir := true,
            is_hidden := false, size := 0 },
          { name := "Cargo.toml", path := "/repo/Cargo.toml",
            is_dir := false, is_hidden := false, size := 120 } ]
    ∧ (({ name := ".git", path := "/repo/.git", is_dir := true,
          is_hidden := true, size := 0 } : FileEntry).is_dir = true →
        ({ name := ".git", path := "/repo/.git", is_dir := true,
           is_hidden := true, size := 0 } : FileEntry).size = 0) := by
  have h :=
    (read_directory_sorted_amended).2 "/repo" exampleDirEnv
      [ { name := ".git", path := "/repo/.git", is_dir := true,
          is_hidden := true, size := 0 },
        { name := "src", path := "/repo/src", is_dir := true,
          is_hidden := false, size := 0 },
        { name := "Cargo.toml", path := "/repo/Cargo.toml",
          is_dir := false, is_hidden := false, size := 120 } ]
      (by rfl)
  exact ⟨h.1, (h.2 _ (by simp)).1⟩

/-! ## C9: `read_directory` on a bad path always errors -/

/-- C9: when the path does not exist, or exists but is not a directory,
`read_directory` returns an error — never a success list. -/
theorem read_directory_bad_path_error (path : String) (env : DirEnv)
    (h : env.path_exists = false ∨ env.path_is_dir = false) :
    ∃ msg, read_directory path env = .error msg := by
  obtain ⟨pe, pd, rd⟩ := env
  cases pe with
  | false => exact ⟨_, rfl⟩
  | true =>
    cases pd with
    | false => exact ⟨_, rfl⟩
    | true => simp at h

/-- Witness for C9 on a nonexistent path. -/
theorem read_directory_bad_path_error_witness :
    ∃ msg,
      read_directory "/nope"
          { path_exists := false, path_is_dir := false,
            read_dir := .ok [] } =
        .error msg :=
  read_directory_bad_path_error "/nope"
    { path_exists := false, path_is_dir := false, read_dir := .ok [] }
    (Or.inl rfl)

end AgentMonitor
